import Mathlib

set_option maxRecDepth 16384

/-!
Shallow embedding of `src/stream.py` (AMMS46/UsecaseAgent): a Streamlit page
that validates two environment credentials, builds three agents and three
tasks parameterised by a company name, invokes an external crew orchestrator,
records completed runs in a session history, and renders the result plus the
three stage output files.

The embedding models the process environment as `String → Option String`
(`os.getenv`), the file system seen by the presentation layer as
`String → Option String`, the orchestrator outcome (`crew.kickoff`) as an
`Except String String`, and one user interaction of `main` as a pure step
function on the session history.
-/

namespace UsecaseAgent

/-- The process environment, as observed through `os.getenv`: a name is
mapped to `none` when the variable is unset and to `some v` otherwise. -/
def Env : Type := String → Option String

/-- Python truthiness of an `os.getenv` result, as used by
`if not os.getenv(key)`: `None` and the empty string are both falsy. -/
def getenvTruthy (env : Env) (key : String) : Bool :=
  match env key with
  | none => false
  | some v => v != ""

/-- The fixed list `required_keys = ["GEMINI_API_KEY", "SERPER_API_KEY"]`
from `validate_api_keys` (src/stream.py line 96). -/
def required_keys : List String := ["GEMINI_API_KEY", "SERPER_API_KEY"]

/-- Embedding of `validate_api_keys` (src/stream.py lines 93-102): collects
the required keys whose `os.getenv` value is falsy and returns
`(len(missing_keys) == 0, missing_keys)`. -/
def validate_api_keys (env : Env) : Bool × List String :=
  let missing_keys := required_keys.filter (fun key => !(getenvTruthy env key))
  (missing_keys.length == 0, missing_keys)

/-- Embedding of Python `str.strip()` with no argument: remove leading and
trailing whitespace characters. -/
def pyStrip (s : String) : String :=
  ⟨((s.data.dropWhile Char.isWhitespace).reverse.dropWhile Char.isWhitespace).reverse⟩

/-- Embedding of the `disabled=` argument of the run button
(src/stream.py line 292): `not (api_valid and company_name.strip())`,
where a stripped string is truthy exactly when it is non-empty. -/
def run_button_disabled (env : Env) (company_name : String) : Bool :=
  !((validate_api_keys env).1 && pyStrip company_name != "")

/-- One entry of `st.session_state.analysis_history`
(`analysis_data` in `save_analysis_to_history`, src/stream.py lines 106-112). -/
structure RunRecord where
  timestamp : String
  company : String
  duration : ℚ
  result : String
  id : Nat
deriving Repr, DecidableEq

/-- Embedding of Python `round(duration, 2)`: rounding to two decimal
places (the tie-breaking convention is immaterial to every property proved
here, all of which are preserved by any rounding to the nearest cent). -/
def round2 (x : ℚ) : ℚ := ((round (x * 100) : ℤ) : ℚ) / 100

/-- Embedding of `save_analysis_to_history` (src/stream.py lines 104-113):
appends one record whose `id` is the current history length and whose
timestamp is the formatted current time (passed in as `now`). -/
def save_analysis_to_history (now : String) (history : List RunRecord)
    (company_name result : String) (duration : ℚ) : List RunRecord :=
  history ++ [{ timestamp := now, company := company_name,
                duration := round2 duration, result := result,
                id := history.length }]

/-- The invariant maintained by `save_analysis_to_history`: the `id` fields
of the history are exactly `0, 1, ..., length - 1` in order (each record got
`id = len(history)` at append time and records are never removed). -/
def historyWF (history : List RunRecord) : Prop :=
  history.map RunRecord.id = List.range history.length

/-- The `LLM(...)` construction of src/stream.py lines 332-337, restricted
to the fields actually passed: model name, verbosity, API key, token budget. -/
structure LLM where
  model : String
  verbose : Bool
  google_api_key : Option String
  max_tokens : Nat
deriving Repr, DecidableEq

/-- The two tool objects constructed in `main` (src/stream.py lines 340-341)
and handed to `create_agents_and_tasks`. -/
inductive Tool where
  | serperDev
  | seleniumScraping
deriving Repr, DecidableEq

/-- An `Agent(...)` as constructed in `create_agents_and_tasks`
(src/stream.py lines 119-159), with the fields passed there. -/
structure Agent where
  llm : LLM
  role : String
  goal : String
  backstory : String
  tools : List Tool
  memory : Bool
  verbose : Nat
  max_iter : Nat
  max_execution_time : Nat
deriving Repr, DecidableEq

/-- A `Task(...)` as constructed in `create_agents_and_tasks`
(src/stream.py lines 162-236): description, assigned agent, expected
output text, output file path. -/
structure Task where
  description : String
  agent : Agent
  expected_output : String
  output_file : String
deriving Repr, DecidableEq

/-- The six values returned by `create_agents_and_tasks`
(src/stream.py line 238). -/
structure PipelineDef where
  researcher_agent : Agent
  analyst_agent : Agent
  proposal_agent : Agent
  research_task : Task
  analysis_task : Task
  proposal_task : Task
deriving Repr, DecidableEq

/-- Literal prefix of the research task description f-string before
`{company_name}` (src/stream.py line 163). -/
def research_description_pre : String := "Conduct comprehensive research on "

/-- Literal tail of the research task description f-string after
`{company_name}` (src/stream.py lines 163-172, exact whitespace kept). -/
def research_description_post : String :=
  ". Your research should include:\n        \n"
  ++ "        1. Company Overview: Size, revenue, business model, key products/services\n"
  ++ "        2. Industry Analysis: Market trends, competitive landscape, regulatory environment\n"
  ++ "        3. Technology Stack: Current technology usage, digital maturity level\n"
  ++ "        4. Recent Developments: Latest news, partnerships, investments, strategic initiatives\n"
  ++ "        5. Pain Points: Known challenges or inefficiencies in their operations\n"
  ++ "        6. Growth Areas: Expansion plans, new market opportunities\n"
  ++ "        \n"
  ++ "        Provide detailed, actionable insights that will inform AI/ML use case identification."

/-- Literal prefix of the analysis task description f-string before
`{company_name}` (src/stream.py line 185). -/
def analysis_description_pre : String :=
  "Based on the research findings, identify and analyze potential AI/ML use cases for "

/-- Literal tail of the analysis task description f-string after
`{company_name}` (src/stream.py lines 185-195, exact whitespace kept). -/
def analysis_description_post : String :=
  ". For each use case:\n        \n"
  ++ "        1. Clearly define the business problem it solves\n"
  ++ "        2. Explain the AI/ML approach and techniques required\n"
  ++ "        3. Assess technical feasibility (High/Medium/Low)\n"
  ++ "        4. Estimate potential business impact and ROI\n"
  ++ "        5. Identify implementation challenges and risks\n"
  ++ "        6. Suggest success metrics and KPIs\n"
  ++ "        7. Provide rough timeline and resource estimates\n"
  ++ "        \n"
  ++ "        Prioritize use cases based on impact vs. complexity matrix."

/-- Literal prefix of the proposal task description f-string before
`{company_name}` (src/stream.py line 208). -/
def proposal_description_pre : String :=
  "Create a professional AI/ML implementation proposal for "

/-- Literal tail of the proposal task description f-string after
`{company_name}` (src/stream.py lines 208-222, exact whitespace kept). -/
def proposal_description_post : String :=
  " that includes:\n        \n"
  ++ "        1. Executive Summary highlighting key recommendations\n"
  ++ "        2. Prioritized use case roadmap with 3 phases (Quick Wins, Medium-term, Long-term)\n"
  ++ "        3. Detailed implementation plan for top 3 use cases including:\n"
  ++ "           - Technical architecture and approach\n"
  ++ "           - Required tools, technologies, and infrastructure\n"
  ++ "           - Team composition and skill requirements\n"
  ++ "           - Project timeline with milestones\n"
  ++ "           - Budget estimates and ROI projections\n"
  ++ "           - Risk management plan\n"
  ++ "        4. Success measurement framework\n"
  ++ "        5. Next steps and recommendations\n"
  ++ "        \n"
  ++ "        Format as a professional business proposal."

/-- The `expected_output` of the research task (src/stream.py lines 174-180):
a plain (non-f) triple-quoted string, not parameterised by the company. -/
def research_expected_output : String :=
  "A comprehensive research report containing:\n"
  ++ "        - Executive summary of the company\n"
  ++ "        - Industry context and market position\n"
  ++ "        - Current technology landscape\n"
  ++ "        - Identified business challenges and opportunities\n"
  ++ "        - Strategic priorities and growth areas\n"
  ++ "        All findings should be well-sourced and include relevant statistics where available."

/-- The `expected_output` of the analysis task (src/stream.py lines 197-203):
a plain (non-f) triple-quoted string, not parameterised by the company. -/
def analysis_expected_output : String :=
  "A detailed analysis report containing:\n"
  ++ "        - 5-8 prioritized AI/ML use cases with comprehensive details\n"
  ++ "        - Impact vs. complexity assessment for each use case\n"
  ++ "        - Technical requirements and implementation considerations\n"
  ++ "        - Risk assessment and mitigation strategies\n"
  ++ "        - Resource and timeline estimates\n"
  ++ "        - Success metrics and measurement framework"

/-- The `expected_output` of the proposal task (src/stream.py lines 224-234):
a plain (non-f) triple-quoted string, not parameterised by the company. -/
def proposal_expected_output : String :=
  "A comprehensive, professional AI/ML implementation proposal including:\n"
  ++ "        - Executive summary with key recommendations\n"
  ++ "        - Detailed 3-phase implementation roadmap\n"
  ++ "        - Technical specifications and architecture\n"
  ++ "        - Resource requirements and budget estimates\n"
  ++ "        - Timeline with key milestones\n"
  ++ "        - Success metrics and KPI framework\n"
  ++ "        - Risk assessment and mitigation plan\n"
  ++ "        - Clear next steps and action items\n"
  ++ "        \n"
  ++ "        The proposal should be ready for presentation to C-level executives."

/-- The goal of the analyst agent (src/stream.py line 136): a plain string,
not an f-string, so not parameterised by the company. -/
def analyst_goal : String :=
  "Analyze research findings to identify high-impact, feasible AI/ML use cases tailored to the company\x27s specific context, capabilities, and industry requirements."

/-- The goal of the proposal agent (src/stream.py line 150): a plain string,
not an f-string, so not parameterised by the company. -/
def proposal_goal : String :=
  "Create a comprehensive, actionable AI/ML implementation proposal with detailed recommendations, timelines, and success metrics."

/-- Embedding of `create_agents_and_tasks` (src/stream.py lines 115-238):
builds the three agents and the three tasks with the literal strings of the
source, the f-strings expanded around `company_name`. -/
def create_agents_and_tasks (company_name : String) (llm : LLM)
    (tool tool_kag : Tool) : PipelineDef :=
  let researcher_agent : Agent :=
    { llm := llm
      role := "Senior Market Research Analyst"
      goal := "Conduct comprehensive research on " ++ company_name
        ++ " including industry analysis, competitive landscape, business model, recent developments, and strategic initiatives."
      backstory := "You are a seasoned market research analyst with 15+ years of experience in technology and business intelligence. \n"
        ++ "        You excel at gathering comprehensive information about companies, understanding their market position, \n"
        ++ "        identifying growth opportunities, and analyzing industry trends that could impact AI/ML adoption."
      tools := [tool, tool_kag]
      memory := true
      verbose := 1
      max_iter := 3
      max_execution_time := 300 }
  let analyst_agent : Agent :=
    { llm := llm
      role := "AI/ML Strategy Consultant"
      goal := analyst_goal
      backstory := "You are an expert AI/ML strategy consultant with deep knowledge of machine learning applications across industries. \n"
        ++ "        You specialize in identifying practical AI/ML use cases that align with business objectives, \n"
        ++ "        considering technical feasibility, ROI potential, and implementation complexity."
      tools := [tool]
      memory := true
      verbose := 1
      max_iter := 3
      max_execution_time := 300 }
  let proposal_agent : Agent :=
    { llm := llm
      role := "Technical Proposal Specialist"
      goal := proposal_goal
      backstory := "You are a technical proposal specialist with expertise in AI/ML project planning and implementation. \n"
        ++ "        You excel at translating complex technical concepts into clear business proposals, \n"
        ++ "        including implementation roadmaps, resource requirements, and measurable success criteria."
      tools := [tool]
      memory := true
      verbose := 1
      max_iter := 3
      max_execution_time := 300 }
  let research_task : Task :=
    { description := research_description_pre ++ company_name ++ research_description_post
      agent := researcher_agent
      expected_output := research_expected_output
      output_file := "research_findings.md" }
  let analysis_task : Task :=
    { description := analysis_description_pre ++ company_name ++ analysis_description_post
      agent := analyst_agent
      expected_output := analysis_expected_output
      output_file := "use_case_analysis.md" }
  let proposal_task : Task :=
    { description := proposal_description_pre ++ company_name ++ proposal_description_post
      agent := proposal_agent
      expected_output := proposal_expected_output
      output_file := "final_proposal.md" }
  { researcher_agent := researcher_agent
    analyst_agent := analyst_agent
    proposal_agent := proposal_agent
    research_task := research_task
    analysis_task := analysis_task
    proposal_task := proposal_task }

/-- The three tunable controls of the sidebar expander "Advanced Options"
(src/stream.py lines 284-287). -/
structure AdvancedOptions where
  max_tokens : Nat
  verbose_output : Bool
  include_competitor_analysis : Bool
deriving Repr, DecidableEq

/-- The `LLM(...)` construction in `main` (src/stream.py lines 332-337):
only `verbose_output` and `max_tokens` of the options reach the LLM, and the
API key is read from the environment. -/
def makeLLM (opts : AdvancedOptions) (env : Env) : LLM :=
  { model := "gemini/gemini-1.5-flash"
    verbose := opts.verbose_output
    google_api_key := env "GEMINI_API_KEY"
    max_tokens := opts.max_tokens }

/-- The pipeline-definition step as `main` performs it (src/stream.py lines
332-347): build the LLM from the options and the environment, build the two
tools, and call `create_agents_and_tasks`.  A pure function: deterministic,
no I/O. -/
def pipelineDefinition (company_name : String) (opts : AdvancedOptions)
    (env : Env) : PipelineDef :=
  create_agents_and_tasks company_name (makeLLM opts env)
    Tool.serperDev Tool.seleniumScraping

/-- Every text the generated stages carry (agent roles, goals, backstories,
task descriptions, expected outputs) together with the output file paths,
flattened into one list of strings. -/
def stageTexts (p : PipelineDef) : List String :=
  [p.researcher_agent.role, p.researcher_agent.goal, p.researcher_agent.backstory,
   p.analyst_agent.role, p.analyst_agent.goal, p.analyst_agent.backstory,
   p.proposal_agent.role, p.proposal_agent.goal, p.proposal_agent.backstory,
   p.research_task.description, p.research_task.expected_output, p.research_task.output_file,
   p.analysis_task.description, p.analysis_task.expected_output, p.analysis_task.output_file,
   p.proposal_task.description, p.proposal_task.expected_output, p.proposal_task.output_file]

/-- Substring containment: `pat` occurs contiguously in `s`. -/
def containsSubstr (s pat : String) : Prop := pat.data <:+: s.data

instance (s pat : String) : Decidable (containsSubstr s pat) :=
  inferInstanceAs (Decidable (pat.data <:+: s.data))

/-- Embedding of `company_name.replace(' ', '_')` (src/stream.py lines 416,
428, 440): Python `str.replace` with a single-character pattern replaces
every occurrence, i.e. maps each space character to an underscore. -/
def sanitize_company (company_name : String) : String :=
  ⟨company_name.data.map (fun ch => if ch = ' ' then '_' else ch)⟩

/-- Download filename of the final proposal artifact (src/stream.py line 416). -/
def proposal_file_name (company_name : String) : String :=
  sanitize_company company_name ++ "_AI_ML_Proposal.md"

/-- Download filename of the research artifact (src/stream.py line 428). -/
def research_file_name (company_name : String) : String :=
  sanitize_company company_name ++ "_Research.md"

/-- Download filename of the analysis artifact (src/stream.py line 440). -/
def analysis_file_name (company_name : String) : String :=
  sanitize_company company_name ++ "_Analysis.md"

/-- What one of the two viewing tabs (tab2, tab3) renders for its stage
file: the file content via `st.markdown`, or an `st.warning` message when
opening the file raises `FileNotFoundError`. -/
inductive ArtifactView where
  | content (text : String)
  | warning (message : String)
deriving Repr, DecidableEq

/-- One `st.download_button` of the export tab (src/stream.py lines
413-418, 425-430, 437-442): its label, the file data and the offered
filename. -/
structure Download where
  label : String
  data : String
  fileName : String
deriving Repr, DecidableEq

/-- The file system as the presentation layer observes it: a path is mapped
to `some contents` when reading succeeds and to `none` when opening raises
`FileNotFoundError`. -/
def FileSystem : Type := String → Option String

/-- Everything the result tabs of a completed run render
(src/stream.py lines 387-444): tab1 shows `str(result)`; tab2 and tab3 show
the research and analysis files or a per-file warning; tab4 offers a
download button for each of the three files that is present and silently
shows nothing (`except FileNotFoundError: pass`) for an absent one. -/
structure Presentation where
  proposalTab : String
  researchTab : ArtifactView
  analysisTab : ArtifactView
  proposalDownload : Option Download
  researchDownload : Option Download
  analysisDownload : Option Download
deriving Repr, DecidableEq

/-- Embedding of the results-tabs rendering of `main`
(src/stream.py lines 387-444). -/
def renderRunTabs (company_name result : String) (fs : FileSystem) :
    Presentation :=
  { proposalTab := result
    researchTab :=
      match fs "research_findings.md" with
      | some text => ArtifactView.content text
      | none => ArtifactView.warning "Research findings file not found"
    analysisTab :=
      match fs "use_case_analysis.md" with
      | some text => ArtifactView.content text
      | none => ArtifactView.warning "Use case analysis file not found"
    proposalDownload :=
      (fs "final_proposal.md").map (fun text =>
        { label := "📄 Download Full Proposal", data := text,
          fileName := proposal_file_name company_name })
    researchDownload :=
      (fs "research_findings.md").map (fun text =>
        { label := "🔍 Download Research", data := text,
          fileName := research_file_name company_name })
    analysisDownload :=
      (fs "use_case_analysis.md").map (fun text =>
        { label := "📊 Download Analysis", data := text,
          fileName := analysis_file_name company_name }) }

/-- All warning messages a `Presentation` shows.  By construction of the
rendering code, only tab2 and tab3 can produce a warning: the export tab
handles an absent file with `pass` and tab1 never reads a file. -/
def presentationWarnings (p : Presentation) : List String :=
  (match p.researchTab with
   | ArtifactView.warning w => [w]
   | ArtifactView.content _ => []) ++
  (match p.analysisTab with
   | ArtifactView.warning w => [w]
   | ArtifactView.content _ => [])

/-- The inputs of one interaction of `main`: the environment, the sidebar
inputs, the wall-clock readings around the orchestrator call, the formatted
current time used for the history timestamp, the outcome of `crew.kickoff`
(`Except.error e` when the external call raises an exception with message
`e`), and the file system the result tabs read. -/
structure RunInputs where
  env : Env
  company_name : String
  runClicked : Bool
  opts : AdvancedOptions
  startTime : ℚ
  endTime : ℚ
  now : String
  orchestrator : Except String String
  fs : FileSystem

/-- What the interaction displays in the main column: the run branch not
taken, a successful run's result tabs, or the caught exception rendered by
`st.error` (src/stream.py line 447). -/
inductive RunOutcome where
  | notRun
  | succeeded (pres : Presentation)
  | failed (errorMessage : String)
deriving Repr, DecidableEq

/-- Embedding of one interaction of `main` (src/stream.py lines 290-448) as
a step on the session history.  The run button press reaches the handler
only when the button is enabled (`run_button` is `False` while `disabled`),
and the handler re-checks `company_name.strip()`.  On success the duration
is `end_time - start_time`, the result is saved to history, and the result
tabs are rendered; on an exception nothing is saved and the error is shown.
The single `try/except` at the call site catches the exception once, with
no retry, and the interaction ends, leaving the page idle for further
runs. -/
def mainStep (history : List RunRecord) (inp : RunInputs) :
    List RunRecord × RunOutcome :=
  let run_button := inp.runClicked && !(run_button_disabled inp.env inp.company_name)
  if run_button && pyStrip inp.company_name != "" then
    match inp.orchestrator with
    | Except.ok result =>
        let duration := inp.endTime - inp.startTime
        (save_analysis_to_history inp.now history inp.company_name result duration,
         RunOutcome.succeeded (renderRunTabs inp.company_name result inp.fs))
    | Except.error e =>
        (history, RunOutcome.failed ("❌ An error occurred: " ++ e))
  else
    (history, RunOutcome.notRun)

/-- Embedding of the sidebar history rendering (src/stream.py line 301):
`reversed(st.session_state.analysis_history[-5:])` — the last five records
(or all, when fewer), most recent first.  A pure function of the history:
rendering reads and does not modify it. -/
def renderRecentHistory (history : List RunRecord) : List RunRecord :=
  (history.drop (history.length - 5)).reverse

/-! Concrete sample values used to instantiate the theorems below. -/

/-- An environment in which both required credentials are set and non-empty. -/
def envValid : Env := fun _ => some "key-value"

/-- An environment in which no variable is set. -/
def envNone : Env := fun _ => none

/-- An environment in which `GEMINI_API_KEY` is set but equal to the empty
string, while every other variable is set and non-empty. -/
def envEmptyGemini : Env :=
  fun key => if key = "GEMINI_API_KEY" then some "" else some "filled"

/-- The default advanced options of the sidebar (src/stream.py lines 285-287). -/
def optsDefault : AdvancedOptions :=
  { max_tokens := 5000, verbose_output := true, include_competitor_analysis := true }

/-- A file system in which every path is readable. -/
def fsAllPresent : FileSystem := fun _ => some "stage output text"

/-- A file system in which only `final_proposal.md` is absent. -/
def fsMissingProposal : FileSystem :=
  fun path => if path = "final_proposal.md" then none else some "stage output text"

/-- A file system in which only `research_findings.md` is absent. -/
def fsMissingResearch : FileSystem :=
  fun path => if path = "research_findings.md" then none else some "stage output text"

/-- A concrete interaction: valid credentials, company "Tesla", run clicked,
orchestrator succeeds after ten seconds. -/
def inputsOk : RunInputs :=
  { env := envValid, company_name := "Tesla", runClicked := true,
    opts := optsDefault, startTime := 0, endTime := 10,
    now := "2026-10-12 00:00:00", orchestrator := Except.ok "aggregate result",
    fs := fsAllPresent }

/-- A concrete interaction identical to `inputsOk` except that the
orchestrator call raises an exception with message "boom". -/
def inputsErr : RunInputs :=
  { env := envValid, company_name := "Tesla", runClicked := true,
    opts := optsDefault, startTime := 0, endTime := 10,
    now := "2026-10-12 00:00:00", orchestrator := Except.error "boom",
    fs := fsAllPresent }

/-- A concrete interaction with a whitespace-only company name. -/
def inputsBlank : RunInputs :=
  { env := envValid, company_name := "   ", runClicked := true,
    opts := optsDefault, startTime := 0, endTime := 10,
    now := "2026-10-12 00:00:00", orchestrator := Except.ok "aggregate result",
    fs := fsAllPresent }

/-- A sample history record with a given sequence id. -/
def sampleRecord (n : Nat) : RunRecord :=
  { timestamp := "t", company := "c", duration := 1, result := "r", id := n }

/-- A well-formed sample history of seven records. -/
def sampleHistory7 : List RunRecord :=
  [sampleRecord 0, sampleRecord 1, sampleRecord 2, sampleRecord 3,
   sampleRecord 4, sampleRecord 5, sampleRecord 6]

/-! Helper lemmas shared by the claim theorems. -/

/-- A string built by splicing `s` between two fixed strings contains `s`
as a substring. -/
theorem containsSubstr_affix (pre post s : String) :
    containsSubstr (pre ++ s ++ post) s := by
  unfold containsSubstr
  rw [String.data_append, String.data_append]
  exact List.infix_append _ _ _

/-- Rounding a non-negative duration to two decimals is non-negative. -/
theorem round2_nonneg {x : ℚ} (h : 0 ≤ x) : 0 ≤ round2 x := by
  unfold round2
  apply div_nonneg _ (by norm_num)
  have h1 : (0 : ℤ) ≤ round (x * 100) := by
    rw [round_eq]
    apply Int.le_floor.mpr
    push_cast
    nlinarith
  exact_mod_cast h1

/-- Appending a record via `save_analysis_to_history` preserves the
sequence-id invariant, since the new record receives `id = len(history)`. -/
theorem historyWF_save (now : String) (history : List RunRecord)
    (company_name result : String) (duration : ℚ) (h : historyWF history) :
    historyWF (save_analysis_to_history now history company_name result duration) := by
  unfold historyWF save_analysis_to_history at *
  simp [h, List.range_succ]

/-- In a well-formed history every stored id is below the history length. -/
theorem historyWF_id_lt (history : List RunRecord) (h : historyWF history) :
    ∀ record ∈ history, record.id < history.length := by
  intro record hmem
  have : record.id ∈ history.map RunRecord.id := List.mem_map_of_mem _ hmem
  rw [h] at this
  exact List.mem_range.mp this

/-- In a well-formed history the sequence ids are strictly increasing. -/
theorem historyWF_pairwise (history : List RunRecord) (h : historyWF history) :
    history.Pairwise (fun a b => a.id < b.id) := by
  have hp : (history.map RunRecord.id).Pairwise (· < ·) := by
    rw [h]; exact List.pairwise_lt_range _
  exact List.pairwise_map.mp hp

/-- The sidebar history rendering equals the first five records of the
reversed history. -/
theorem renderRecentHistory_eq_take (history : List RunRecord) :
    renderRecentHistory history = history.reverse.take 5 := by
  unfold renderRecentHistory
  rw [show history.drop (history.length - 5) = history.rtake 5 from rfl,
      List.rtake_eq_reverse_take_reverse, List.reverse_reverse]

/-- The sidebar history rendering lists ids in strictly decreasing order
when the history is well formed. -/
theorem renderRecentHistory_pairwise (history : List RunRecord)
    (h : historyWF history) :
    (renderRecentHistory history).Pairwise (fun a b => b.id < a.id) := by
  unfold renderRecentHistory
  rw [List.pairwise_reverse]
  exact List.Pairwise.sublist (List.drop_sublist _ _) (historyWF_pairwise history h)

/-- When the gate passes and the orchestrator succeeds, `mainStep` saves the
run and renders the result tabs. -/
theorem mainStep_ok_eq (history : List RunRecord) (inp : RunInputs)
    (result : String)
    (hv : (validate_api_keys inp.env).1 = true)
    (hc : pyStrip inp.company_name ≠ "")
    (hr : inp.runClicked = true)
    (hok : inp.orchestrator = Except.ok result) :
    mainStep history inp =
      (save_analysis_to_history inp.now history inp.company_name result
         (inp.endTime - inp.startTime),
       RunOutcome.succeeded (renderRunTabs inp.company_name result inp.fs)) := by
  have hc2 : (pyStrip inp.company_name != "") = true := bne_iff_ne.mpr hc
  simp [mainStep, run_button_disabled, hv, hr, hc2, hok]

/-- When the gate passes and the orchestrator raises, `mainStep` leaves the
history unchanged and shows the caught error. -/
theorem mainStep_error_eq (history : List RunRecord) (inp : RunInputs)
    (e : String)
    (hv : (validate_api_keys inp.env).1 = true)
    (hc : pyStrip inp.company_name ≠ "")
    (hr : inp.runClicked = true)
    (herr : inp.orchestrator = Except.error e) :
    mainStep history inp =
      (history, RunOutcome.failed ("❌ An error occurred: " ++ e)) := by
  have hc2 : (pyStrip inp.company_name != "") = true := bne_iff_ne.mpr hc
  simp [mainStep, run_button_disabled, hv, hr, hc2, herr]

/-! Claim theorems. -/

/-- C1 counterexample: at company "Tesla" the claim fails as stated.  The
expected-output texts are plain strings, not interpolated with the company
name: the research stage's expected output is identical for two different
companies and does not contain "Tesla"; and under the data model's reading
of `goal` as the agent goal, the second stage's goal does not contain
"Tesla" either (only the researcher agent's goal is an f-string). -/
theorem analyst_goal_not_interpolated :
    (pipelineDefinition "Tesla" optsDefault envValid).research_task.expected_output =
      (pipelineDefinition "Edison" optsDefault envValid).research_task.expected_output ∧
    ¬ containsSubstr
        ((pipelineDefinition "Tesla" optsDefault envValid).research_task.expected_output)
        "Tesla" ∧
    ¬ containsSubstr
        ((pipelineDefinition "Tesla" optsDefault envValid).analyst_agent.goal)
        "Tesla" := by
  exact ⟨rfl, by decide, by decide⟩

/-- C1 (amended): for every company name that is non-empty after stripping,
the pipeline-definition step is a pure function of its inputs (deterministic,
no I/O) returning three stage descriptors whose task-description texts are
interpolated with the company name, so each of the three stages' description
contains the company name as a substring; the researcher agent's goal is
interpolated as well, while the expected-output texts are fixed templates. -/
theorem pipeline_descriptions_contain_company (company_name : String)
    (opts : AdvancedOptions) (env : Env)
    (hne : pyStrip company_name ≠ "") :
    containsSubstr
      ((pipelineDefinition company_name opts env).research_task.description)
      company_name ∧
    containsSubstr
      ((pipelineDefinition company_name opts env).analysis_task.description)
      company_name ∧
    containsSubstr
      ((pipelineDefinition company_name opts env).proposal_task.description)
      company_name ∧
    containsSubstr
      ((pipelineDefinition company_name opts env).researcher_agent.goal)
      company_name := by
  exact ⟨containsSubstr_affix _ _ _, containsSubstr_affix _ _ _,
         containsSubstr_affix _ _ _, containsSubstr_affix _ _ _⟩

/-- C1 witness: the amended theorem instantiated at company "Tesla". -/
theorem pipeline_descriptions_contain_company_witness :
    pyStrip "Tesla" ≠ "" ∧
    (containsSubstr
      ((pipelineDefinition "Tesla" optsDefault envValid).research_task.description)
      "Tesla" ∧
    containsSubstr
      ((pipelineDefinition "Tesla" optsDefault envValid).analysis_task.description)
      "Tesla" ∧
    containsSubstr
      ((pipelineDefinition "Tesla" optsDefault envValid).proposal_task.description)
      "Tesla" ∧
    containsSubstr
      ((pipelineDefinition "Tesla" optsDefault envValid).researcher_agent.goal)
      "Tesla") :=
  ⟨by decide,
   pipeline_descriptions_contain_company "Tesla" optsDefault envValid (by decide)⟩

/-- C2 counterexample: in an environment where `GEMINI_API_KEY` is set (so
not absent) but equal to the empty string, validation still reports it
missing, so the missing-keys list does not equal the set of absent
variables (which is empty here). -/
theorem present_empty_key_reported_missing :
    envEmptyGemini "GEMINI_API_KEY" = some "" ∧
    (validate_api_keys envEmptyGemini).1 = false ∧
    (validate_api_keys envEmptyGemini).2 = ["GEMINI_API_KEY"] := by
  exact ⟨by decide, by decide, by decide⟩

/-- C2 (amended): for every process environment, credential validation
returns valid exactly when both required variables are set to non-empty
(truthy) values; the missing-keys list equals, in the fixed declared order,
exactly the required variables that are unset or empty; and whenever
validation fails the run control is disabled. -/
theorem validate_api_keys_characterization (env : Env) :
    ((validate_api_keys env).1 = true ↔
       getenvTruthy env "GEMINI_API_KEY" = true ∧
       getenvTruthy env "SERPER_API_KEY" = true) ∧
    (validate_api_keys env).2 =
      (if getenvTruthy env "GEMINI_API_KEY" then [] else ["GEMINI_API_KEY"]) ++
      (if getenvTruthy env "SERPER_API_KEY" then [] else ["SERPER_API_KEY"]) ∧
    ((validate_api_keys env).1 = false →
      ∀ company_name, run_button_disabled env company_name = true) := by
  cases hG : getenvTruthy env "GEMINI_API_KEY" <;>
    cases hS : getenvTruthy env "SERPER_API_KEY" <;>
      simp [validate_api_keys, required_keys, run_button_disabled, hG, hS]

/-- C2 witness: in the fully unset environment both keys are reported
missing, in declared order, and the run control is disabled. -/
theorem validate_api_keys_characterization_witness :
    (validate_api_keys envNone).2 = ["GEMINI_API_KEY", "SERPER_API_KEY"] ∧
    run_button_disabled envNone "Tesla" = true :=
  ⟨by decide,
   (validate_api_keys_characterization envNone).2.2 (by decide) "Tesla"⟩

/-- C3: whenever the company name is empty or whitespace-only after
stripping, or the credentials are invalid, the run control is disabled and
the interaction leaves the history unchanged: no run starts and no
RunRecord is created. -/
theorem blank_or_invalid_blocks_run (history : List RunRecord)
    (inp : RunInputs)
    (h : pyStrip inp.company_name = "" ∨ (validate_api_keys inp.env).1 = false) :
    run_button_disabled inp.env inp.company_name = true ∧
    mainStep history inp = (history, RunOutcome.notRun) := by
  cases h with
  | inl hblank =>
      have hb : (pyStrip inp.company_name != "") = false := by simp [hblank]
      exact ⟨by simp [run_button_disabled, hb], by simp [mainStep, hb]⟩
  | inr hinv =>
      refine ⟨by simp [run_button_disabled, hinv], ?_⟩
      simp [mainStep, run_button_disabled, hinv]

/-- C3 witness: with a whitespace-only company name the run control is
disabled and the (empty) history is unchanged. -/
theorem blank_or_invalid_blocks_run_witness :
    pyStrip "   " = "" ∧
    run_button_disabled envValid "   " = true ∧
    mainStep [] inputsBlank = ([], RunOutcome.notRun) := by
  have h := blank_or_invalid_blocks_run [] inputsBlank (Or.inl (by decide))
  exact ⟨by decide, h.1, h.2⟩

/-- C4: for every interaction with valid credentials, a non-blank company
name and a completed (non-raising) orchestrator call, and wall-clock time
that does not run backwards during the run, exactly one RunRecord is
appended: the new history is the old one plus a single record carrying the
current timestamp, a duration ≥ 0 and sequence id `len(history)`, which is
strictly greater than every id already stored; the invariant is preserved. -/
theorem completed_run_appends_one_record (history : List RunRecord)
    (inp : RunInputs) (result : String)
    (hv : (validate_api_keys inp.env).1 = true)
    (hc : pyStrip inp.company_name ≠ "")
    (hr : inp.runClicked = true)
    (hok : inp.orchestrator = Except.ok result)
    (ht : inp.startTime ≤ inp.endTime)
    (hwf : historyWF history) :
    (mainStep history inp).1 =
      history ++ [{ timestamp := inp.now, company := inp.company_name,
                    duration := round2 (inp.endTime - inp.startTime),
                    result := result, id := history.length }] ∧
    (mainStep history inp).1.length = history.length + 1 ∧
    0 ≤ round2 (inp.endTime - inp.startTime) ∧
    (∀ old ∈ history, old.id < history.length) ∧
    historyWF (mainStep history inp).1 := by
  have hstep := mainStep_ok_eq history inp result hv hc hr hok
  have h1 : (mainStep history inp).1 =
      save_analysis_to_history inp.now history inp.company_name result
        (inp.endTime - inp.startTime) := by rw [hstep]
  refine ⟨h1, ?_, round2_nonneg (by linarith), historyWF_id_lt history hwf, ?_⟩
  · rw [h1]; simp [save_analysis_to_history]
  · rw [h1]; exact historyWF_save _ _ _ _ _ hwf

/-- C4 witness: the concrete successful "Tesla" run starting from the empty
history appends exactly one record with non-negative duration. -/
theorem completed_run_appends_one_record_witness :
    (mainStep [] inputsOk).1.length = 1 ∧
    0 ≤ round2 (inputsOk.endTime - inputsOk.startTime) ∧
    historyWF (mainStep [] inputsOk).1 := by
  have h := completed_run_appends_one_record [] inputsOk "aggregate result"
    (by decide) (by decide) rfl rfl
    (show (0 : ℚ) ≤ 10 by norm_num) (by rfl)
  exact ⟨h.2.1, h.2.2.1, h.2.2.2.2⟩

/-- C5: if the orchestrator call raises any exception, the run fails
atomically: the history is unchanged (no RunRecord is created), the
exception is caught once at the call site and shown as an error carrying
the exception's message in full, there is no retry inside the interaction,
and the page is idle again afterwards — a subsequent successful interaction
appends its record as usual. -/
theorem orchestrator_failure_is_atomic (history : List RunRecord)
    (inp : RunInputs) (e : String)
    (hv : (validate_api_keys inp.env).1 = true)
    (hc : pyStrip inp.company_name ≠ "")
    (hr : inp.runClicked = true)
    (herr : inp.orchestrator = Except.error e) :
    (mainStep history inp).1 = history ∧
    (mainStep history inp).2 =
      RunOutcome.failed ("❌ An error occurred: " ++ e) ∧
    (∀ inp2 result2, (validate_api_keys inp2.env).1 = true →
       pyStrip inp2.company_name ≠ "" → inp2.runClicked = true →
       inp2.orchestrator = Except.ok result2 →
       (mainStep (mainStep history inp).1 inp2).1.length = history.length + 1) := by
  have hstep := mainStep_error_eq history inp e hv hc hr herr
  have hfst : (mainStep history inp).1 = history := by rw [hstep]
  refine ⟨hfst, by rw [hstep], ?_⟩
  intro inp2 result2 hv2 hc2 hr2 hok2
  have hstep2 := mainStep_ok_eq (mainStep history inp).1 inp2 result2 hv2 hc2 hr2 hok2
  rw [hfst] at hstep2
  rw [hfst, hstep2]
  simp [save_analysis_to_history]

/-- C5 witness: the concrete failing "Tesla" run leaves the empty history
empty and shows the caught error, and an immediately following successful
run appends one record. -/
theorem orchestrator_failure_is_atomic_witness :
    (mainStep [] inputsErr).1 = [] ∧
    (mainStep [] inputsErr).2 = RunOutcome.failed "❌ An error occurred: boom" ∧
    (mainStep (mainStep [] inputsErr).1 inputsOk).1.length = 1 := by
  have h := orchestrator_failure_is_atomic [] inputsErr "boom"
    (by decide) (by decide) rfl rfl
  exact ⟨h.1, h.2.1, h.2.2 inputsOk "aggregate result" (by decide) (by decide) rfl rfl⟩

/-- C6 counterexample: when `final_proposal.md` is absent (the other two
files present), the presentation shows no warning at all — the export tab
handles the absence with `pass`, silently omitting the download button — so
the claim's "an inline warning for that artifact" fails for this artifact. -/
theorem missing_proposal_file_shows_no_warning :
    fsMissingProposal "final_proposal.md" = none ∧
    presentationWarnings
      (renderRunTabs "Tesla" "aggregate result" fsMissingProposal) = [] ∧
    (renderRunTabs "Tesla" "aggregate result" fsMissingProposal).proposalDownload =
      none := by
  exact ⟨by decide, by decide, by decide⟩

/-- C6 (amended): absence of a stage output file is never fatal and never
affects the rendering of the other artifacts.  The warnings shown are
exactly one inline warning for the research file and one for the analysis
file when each is absent; an absent file in the export tab — in particular
the final proposal, which no viewing tab reads — only omits its download
button silently.  Every present artifact is rendered and offered for
download regardless of the others. -/
theorem stage_file_absence_warnings (company_name result : String)
    (fs : FileSystem) :
    presentationWarnings (renderRunTabs company_name result fs) =
      (if fs "research_findings.md" = none
       then ["Research findings file not found"] else []) ++
      (if fs "use_case_analysis.md" = none
       then ["Use case analysis file not found"] else []) ∧
    (∀ text, fs "research_findings.md" = some text →
       (renderRunTabs company_name result fs).researchTab =
         ArtifactView.content text) ∧
    (∀ text, fs "use_case_analysis.md" = some text →
       (renderRunTabs company_name result fs).analysisTab =
         ArtifactView.content text) ∧
    (∀ text, fs "final_proposal.md" = some text →
       (renderRunTabs company_name result fs).proposalDownload =
         some { label := "📄 Download Full Proposal", data := text,
                fileName := proposal_file_name company_name }) ∧
    (fs "final_proposal.md" = none →
       (renderRunTabs company_name result fs).proposalDownload = none) ∧
    (renderRunTabs company_name result fs).proposalTab = result := by
  rcases hR : fs "research_findings.md" with _ | tR <;>
    rcases hA : fs "use_case_analysis.md" with _ | tA <;>
      rcases hP : fs "final_proposal.md" with _ | tP <;>
        simp [renderRunTabs, presentationWarnings, hR, hA, hP]

/-- C6 witness: with only the research file absent, exactly its warning is
shown, while the analysis artifact still renders and the proposal download
is still offered. -/
theorem stage_file_absence_warnings_witness :
    presentationWarnings
      (renderRunTabs "Tesla" "aggregate result" fsMissingResearch) =
      ["Research findings file not found"] ∧
    (renderRunTabs "Tesla" "aggregate result" fsMissingResearch).analysisTab =
      ArtifactView.content "stage output text" ∧
    (renderRunTabs "Tesla" "aggregate result" fsMissingResearch).proposalDownload =
      some { label := "📄 Download Full Proposal", data := "stage output text",
             fileName := proposal_file_name "Tesla" } := by
  have h := stage_file_absence_warnings "Tesla" "aggregate result" fsMissingResearch
  refine ⟨?_, h.2.2.1 "stage output text" (by decide),
          h.2.2.2.1 "stage output text" (by decide)⟩
  rw [h.1]; decide

/-- C7: the rendered run history shows at most five records; it equals the
five-record prefix of the reversed history, hence is in most-recent-first
(reverse-chronological) order — for a well-formed history the sequence ids
it lists are strictly decreasing; and rendering is a pure read of the
history, so rendering twice without an intervening record yields the same
sequence. -/
theorem recent_history_rendering (history : List RunRecord)
    (hwf : historyWF history) :
    (renderRecentHistory history).length ≤ 5 ∧
    renderRecentHistory history = history.reverse.take 5 ∧
    (renderRecentHistory history).Pairwise (fun a b => b.id < a.id) ∧
    renderRecentHistory history = renderRecentHistory history := by
  refine ⟨?_, renderRecentHistory_eq_take history,
         renderRecentHistory_pairwise history hwf, rfl⟩
  rw [renderRecentHistory_eq_take]
  simp [List.length_take]

/-- C7 witness: the seven-record sample history renders as five records in
strictly decreasing id order. -/
theorem recent_history_rendering_witness :
    historyWF sampleHistory7 ∧
    (renderRecentHistory sampleHistory7).length ≤ 5 ∧
    (renderRecentHistory sampleHistory7).Pairwise (fun a b => b.id < a.id) := by
  have h := recent_history_rendering sampleHistory7 (by rfl)
  exact ⟨by rfl, h.1, h.2.2.1⟩

/-- C8: every download offered after a run has a filename consisting of the
company name with every space character replaced by an underscore, followed
by that artifact's fixed suffix; the sanitized part has the same length as
the company name and contains no space. -/
theorem download_names_sanitized (company_name result : String)
    (fs : FileSystem) :
    (sanitize_company company_name).data.length = company_name.data.length ∧
    ' ' ∉ (sanitize_company company_name).data ∧
    (∀ d, (renderRunTabs company_name result fs).proposalDownload = some d →
       d.fileName = sanitize_company company_name ++ "_AI_ML_Proposal.md") ∧
    (∀ d, (renderRunTabs company_name result fs).researchDownload = some d →
       d.fileName = sanitize_company company_name ++ "_Research.md") ∧
    (∀ d, (renderRunTabs company_name result fs).analysisDownload = some d →
       d.fileName = sanitize_company company_name ++ "_Analysis.md") := by
  refine ⟨by simp [sanitize_company], ?_, ?_, ?_, ?_⟩
  · intro hmem
    simp only [sanitize_company, List.mem_map] at hmem
    obtain ⟨a, _, ha⟩ := hmem
    by_cases h : a = ' ' <;> simp [h] at ha
  · intro d hd
    rcases hP : fs "final_proposal.md" with _ | tP <;>
      simp [renderRunTabs, hP, proposal_file_name] at hd
    cases hd
    rfl
  · intro d hd
    rcases hR : fs "research_findings.md" with _ | tR <;>
      simp [renderRunTabs, hR, research_file_name] at hd
    cases hd
    rfl
  · intro d hd
    rcases hA : fs "use_case_analysis.md" with _ | tA <;>
      simp [renderRunTabs, hA, analysis_file_name] at hd
    cases hd
    rfl

/-- C8 witness: for company "Acme Corp" the offered proposal filename is
"Acme_Corp_AI_ML_Proposal.md" — the space replaced by an underscore — and
the sanitized name contains no space. -/
theorem download_names_sanitized_witness :
    proposal_file_name "Acme Corp" = "Acme_Corp_AI_ML_Proposal.md" ∧
    ' ' ∉ (sanitize_company "Acme Corp").data ∧
    (∃ d, (renderRunTabs "Acme Corp" "res" fsAllPresent).proposalDownload = some d ∧
       d.fileName = sanitize_company "Acme Corp" ++ "_AI_ML_Proposal.md") := by
  have h := download_names_sanitized "Acme Corp" "res" fsAllPresent
  refine ⟨by decide, h.2.1, ?_⟩
  refine ⟨{ label := "📄 Download Full Proposal", data := "stage output text",
            fileName := proposal_file_name "Acme Corp" }, by decide, ?_⟩
  exact h.2.2.1 _ (by decide)

/-- C9: the texts of the three generated stage descriptors (roles, goals,
backstories, task descriptions, expected outputs) and their output file
paths depend only on the company name: for the same company they are
identical across any two environments and any two advanced-option settings
— in particular the include-competitor-analysis flag (which never reaches
`create_agents_and_tasks`) has no effect, and neither do the token budget
and verbosity, which only enter the LLM handle. -/
theorem stage_texts_depend_only_on_company (company_name : String)
    (env1 env2 : Env) (opts1 opts2 : AdvancedOptions) :
    stageTexts (pipelineDefinition company_name opts1 env1) =
      stageTexts (pipelineDefinition company_name opts2 env2) := rfl

/-- C10: a required credential whose environment variable is set but equal
to the empty string is treated exactly like an absent variable, because
validation tests the value's truthiness: it is reported missing, validity
is false, and the run control is disabled for every company name. -/
theorem empty_valued_key_treated_as_missing (env : Env) (key : String)
    (hmem : key ∈ required_keys) (hval : env key = some "") :
    getenvTruthy env key = false ∧
    key ∈ (validate_api_keys env).2 ∧
    (validate_api_keys env).1 = false ∧
    (∀ company_name, run_button_disabled env company_name = true) := by
  have ht : getenvTruthy env key = false := by simp [getenvTruthy, hval]
  have hmem2 : key ∈ (validate_api_keys env).2 := by
    simp only [validate_api_keys, List.mem_filter]
    exact ⟨hmem, by simp [ht]⟩
  have hne2 : (validate_api_keys env).2 ≠ [] := by
    intro hnil
    rw [hnil] at hmem2
    exact absurd hmem2 (List.not_mem_nil key)
  have hfalse : (validate_api_keys env).1 = false := by
    have hlen : (validate_api_keys env).2.length ≠ 0 := by
      simpa [List.length_eq_zero] using hne2
    simpa [validate_api_keys] using hlen
  exact ⟨ht, hmem2, hfalse, fun c => by simp [run_button_disabled, hfalse]⟩

/-- C10 witness: with `GEMINI_API_KEY` set to the empty string it is
reported missing, validation fails, and the run control is disabled. -/
theorem empty_valued_key_treated_as_missing_witness :
    "GEMINI_API_KEY" ∈ (validate_api_keys envEmptyGemini).2 ∧
    (validate_api_keys envEmptyGemini).1 = false ∧
    run_button_disabled envEmptyGemini "Tesla" = true := by
  have h := empty_valued_key_treated_as_missing envEmptyGemini "GEMINI_API_KEY"
    (by decide) (by decide)
  exact ⟨h.2.1, h.2.2.1, h.2.2.2 "Tesla"⟩

end UsecaseAgent
